import Mathlib

/-!
# ui/kms.c : KMS display binding

A shallow embedding of `src/ui/kms.c`.  The kernel mode-setting interface
(libdrm) is an oracle `Drm`: every fetch is a function of its arguments, so a
topology is one value of `Drm` and the answers do not change during a call.
A C function becomes a Lean function returning `Run _`: the value
`Except.error` stands for an execution that C leaves undefined (a read through
a NULL pointer, a shift outside the range of `int`).  Every run also carries
the list of library calls it made, in order, which is what the
resource-discipline properties are stated on.
-/

namespace Kms

/-! ## Machine integers -/

/-- Value of a `uint32_t` (or the low 32 bits of a wider value) converted to `int`. -/
def toInt32 (n : Nat) : Int :=
  if n % 2 ^ 32 < 2 ^ 31 then ((n % 2 ^ 32 : Nat) : Int) else ((n % 2 ^ 32 : Nat) : Int) - 2 ^ 32

/-- Value of an `int` converted to `uint32_t`. -/
def toUInt32 (z : Int) : Nat := (z % 2 ^ 32).toNat

/-! ## Constants of the DRM headers -/

/-- Plane type `DRM_PLANE_TYPE_OVERLAY` of the DRM user API header (not under src/). -/
def DRM_PLANE_TYPE_OVERLAY : Int := 0

/-- Plane type `DRM_PLANE_TYPE_PRIMARY` of the DRM user API header (not under src/). -/
def DRM_PLANE_TYPE_PRIMARY : Int := 1

/-- Plane type `DRM_PLANE_TYPE_CURSOR` of the DRM user API header (not under src/). -/
def DRM_PLANE_TYPE_CURSOR : Int := 2

/-- Connection state `DRM_MODE_CONNECTED` of `xf86drmMode.h` (not under src/). -/
def DRM_MODE_CONNECTED : Nat := 1

/-- Object type tag `DRM_MODE_OBJECT_PLANE` of the DRM user API header (not under src/). -/
def DRM_MODE_OBJECT_PLANE : Nat := 0xeeeeeeee

/-! ## Descriptors returned by libdrm (the fields the program reads) -/

/-- Property descriptor `drmModePropertyRes`: the name is the C string held in `name`. -/
structure drmModePropertyRes where
  prop_id : Nat
  name : String
  deriving DecidableEq, Repr

/-- Property list `drmModeObjectProperties`: entry `i` is `(props[i], prop_values[i])`,
and `count_props` is the length. -/
structure drmModeObjectProperties where
  props : List (Nat × Nat)
  deriving DecidableEq, Repr

/-- Plane descriptor `drmModePlane`. -/
structure drmModePlane where
  plane_id : Nat
  possible_crtcs : Nat
  deriving DecidableEq, Repr

/-- Plane list `drmModePlaneRes`: `planes[0 .. count_planes)`. -/
structure drmModePlaneRes where
  planes : List Nat
  deriving DecidableEq, Repr

/-- Connector descriptor `drmModeConnector`. -/
structure drmModeConnector where
  connector_id : Nat
  encoder_id : Nat
  connection : Nat
  count_modes : Nat
  deriving DecidableEq, Repr

/-- Encoder descriptor `drmModeEncoder`. -/
structure drmModeEncoder where
  encoder_id : Nat
  crtc_id : Nat
  deriving DecidableEq, Repr

/-- Resource list `drmModeRes`: `connectors[0 .. count_connectors)`. -/
structure drmModeRes where
  connectors : List Nat
  deriving DecidableEq, Repr

/-- The environment of the program: the card, the libdrm fetches and the host
display layer.  A failed `open` and a failed resource query carry the value of
`errno` at the `return`; a failed fetch is `none` (a NULL pointer).
`graphic_get_plane_id` is the framebuffer id the host display layer hands to
`kms_init` (that function is not under src/). -/
structure Drm where
  open_card : Except Nat Int
  drmModeGetResources : Int → Except Nat drmModeRes
  drmModeGetConnector : Int → Nat → Option drmModeConnector
  drmModeGetEncoder : Int → Nat → Option drmModeEncoder
  drmModeGetPlaneResources : Int → Option drmModePlaneRes
  drmModeGetPlane : Int → Nat → Option drmModePlane
  drmModeObjectGetProperties : Int → Nat → Nat → Option drmModeObjectProperties
  drmModeGetProperty : Int → Nat → Option drmModePropertyRes
  graphic_get_plane_id : Nat

/-! ## Program state -/

/-- The record `struct intel_vgpu_display_pipe`. -/
structure intel_vgpu_display_pipe where
  primary_fb_id : Nat
  cursor_fb_id : Nat
  primary_plane_id : Nat
  cursor_plane_id : Nat
  crtc_id : Int
  deriving DecidableEq, Repr

/-- The record `struct modeset_monitor` (the fields the program writes). -/
structure modeset_monitor where
  width : Nat
  height : Nat
  conn : Nat
  crtc : Nat
  fd : Int
  deriving DecidableEq, Repr

/-- The two global records `intel_vgpu_display.pipe` and `modeset_dev`. -/
structure Globals where
  pipe : intel_vgpu_display_pipe
  modeset_dev : modeset_monitor
  deriving DecidableEq, Repr

/-- Globals at program start: static storage is zero. -/
def Globals.zero : Globals :=
  { pipe := { primary_fb_id := 0, cursor_fb_id := 0, primary_plane_id := 0,
              cursor_plane_id := 0, crtc_id := 0 }
    modeset_dev := { width := 0, height := 0, conn := 0, crtc := 0, fd := 0 } }

/-! ## Observable calls -/

/-- Diagnostics written by the program with `fprintf`, `printf` or
`error_report` (the `errno` text is left out). -/
inductive Msg where
  | plane_id_is (id : Nat)
  | cannot_set_plane (fb : Nat)
  | cannot_open_card
  | cannot_retrieve_resources
  | cannot_retrieve_connector (i id : Nat)
  | ignoring_unused_connector (id : Nat)
  | no_valid_mode (id : Nat)
  | render_node_init_failed
  | get_primary_failed
  deriving DecidableEq, Repr

/-- One call into libc, libdrm or the host, in program order.  A fetch carries
whether it returned a descriptor; a release carries the object whose descriptor
it frees, `none` for a NULL argument. -/
inductive Call where
  | open_card (ok : Bool)
  | drmSetClientCap (fd : Int)
  | drmModeGetResources (fd : Int) (ok : Bool)
  | drmModeFreeResources
  | drmModeGetConnector (fd : Int) (id : Nat) (ok : Bool)
  | drmModeFreeConnector (obj : Option Nat)
  | drmModeGetEncoder (fd : Int) (id : Nat) (ok : Bool)
  | drmModeFreeEncoder (obj : Nat)
  | drmModeGetPlaneResources (fd : Int) (ok : Bool)
  | drmModeFreePlaneResources
  | drmModeGetPlane (fd : Int) (id : Nat) (ok : Bool)
  | drmModeFreePlane (obj : Option Nat)
  | drmModeObjectGetProperties (fd : Int) (id type : Nat) (ok : Bool)
  | drmModeFreeObjectProperties (obj : Nat)
  | drmModeGetProperty (fd : Int) (id : Nat) (ok : Bool)
  | drmModeFreeProperty (obj : Nat)
  | drmModeSetPlane (fd : Int) (plane_id crtc_id fb_id flags : Nat)
      (crtc_x crtc_y : Int) (crtc_w crtc_h src_x src_y src_w src_h : Nat)
  | fprintf (m : Msg)
  | register_displaychangelistener
  | unregister_displaychangelistener
  | graphic_get_plane_id
  | exit (status : Nat)
  deriving DecidableEq, Repr

/-- Executions that C leaves undefined. -/
inductive Fault where
  | null_dereference
  | shift_out_of_range
  | indeterminate_read
  deriving DecidableEq, Repr

/-- Outcome of running a C function: its result with the calls it made, or the
fault it ran into with the calls made before the fault. -/
abbrev Run (α : Type) := Except (Fault × List Call) (α × List Call)

/-- The run `r` preceded by the calls `pre`. -/
def after {α : Type} (pre : List Call) : Run α → Run α
  | .error (f, cs) => .error (f, pre ++ cs)
  | .ok (a, cs) => .ok (a, pre ++ cs)

/-! ## kmstest_get_property -/

/-- What `kmstest_get_property` hands back: the return value and the value stored
through each out pointer (`none`: nothing was stored there). -/
structure PropertyLookup where
  found : Bool
  prop_id : Option Nat
  value : Option Nat
  prop : Option drmModePropertyRes
  deriving DecidableEq, Repr

/-- The `for` loop of `kmstest_get_property` over the entries that remain.
The arguments `prop_id`, `value`, `prop` tell whether that out pointer is non-NULL. -/
def kmstest_get_property_loop (k : Drm) (drm_fd : Int) (name : String)
    (prop_id value prop : Bool) : List (Nat × Nat) → PropertyLookup × List Call
  | [] => ({ found := false, prop_id := none, value := none, prop := none }, [])
  | (id, v) :: rest =>
    match k.drmModeGetProperty drm_fd id with
    | none =>
      let r := kmstest_get_property_loop k drm_fd name prop_id value prop rest
      (r.1, Call.drmModeGetProperty drm_fd id false :: r.2)
    | some _prop =>
      if _prop.name = name then
        ({ found := true
           prop_id := if prop_id then some id else none
           value := if value then some v else none
           prop := if prop then some _prop else none },
         Call.drmModeGetProperty drm_fd id true ::
           (if prop then [] else [Call.drmModeFreeProperty id]))
      else
        let r := kmstest_get_property_loop k drm_fd name prop_id value prop rest
        (r.1, Call.drmModeGetProperty drm_fd id true :: Call.drmModeFreeProperty id :: r.2)

/-- The function `kmstest_get_property`: the list pointer is read
(`proplist->count_props`) without a test, so a failed list fetch is a fault. -/
def kmstest_get_property (k : Drm) (drm_fd : Int) (object_id object_type : Nat)
    (name : String) (prop_id value prop : Bool) : Run PropertyLookup :=
  match k.drmModeObjectGetProperties drm_fd object_id object_type with
  | none =>
    .error (.null_dereference, [Call.drmModeObjectGetProperties drm_fd object_id object_type false])
  | some proplist =>
    let r := kmstest_get_property_loop k drm_fd name prop_id value prop proplist.props
    .ok (r.1, Call.drmModeObjectGetProperties drm_fd object_id object_type true ::
                (r.2 ++ [Call.drmModeFreeObjectProperties object_id]))

/-- The function `get_drm_plane_type`: the value of the property named "type"
converted to `int`, or overlay when the plane has no such property. -/
def get_drm_plane_type (k : Drm) (drm_fd : Int) (plane_id : Nat) : Run Int :=
  match kmstest_get_property k drm_fd plane_id DRM_MODE_OBJECT_PLANE "type" false true false with
  | .error e => .error e
  | .ok (r, cs) =>
    if r.found then
      match r.value with
      | some value => .ok (toInt32 value, cs)
      | none => .error (.indeterminate_read, cs)
    else .ok (DRM_PLANE_TYPE_OVERLAY, cs)

/-! ## kms_assign_planes -/

/-- The function `dump_drmModePlaneRes_info`. -/
def dump_drmModePlaneRes_info (res : drmModePlaneRes) : List Call :=
  res.planes.map fun id => Call.fprintf (Msg.plane_id_is id)

/-- The `for` loop of `kms_assign_planes` from index `i` on: the store to
`primary_plane_id`, if one was made, and the calls.  `1 << i` is an `int`
shift, defined by C only while the result fits, that is for `i < 31`; it is
evaluated only when the descriptor is not NULL. -/
def kms_assign_planes_loop (k : Drm) (fd : Int) : Nat → List Nat → Run (Option Nat)
  | _, [] => .ok (none, [])
  | i, id :: rest =>
    match k.drmModeGetPlane fd id with
    | none =>
      after [Call.drmModeGetPlane fd id false, Call.drmModeFreePlane none]
        (kms_assign_planes_loop k fd (i + 1) rest)
    | some drm_plane =>
      if 31 ≤ i then .error (.shift_out_of_range, [Call.drmModeGetPlane fd id true])
      else if (drm_plane.possible_crtcs % 2 ^ 32) &&& (1 <<< i) = 0 then
        after [Call.drmModeGetPlane fd id true, Call.drmModeFreePlane (some id)]
          (kms_assign_planes_loop k fd (i + 1) rest)
      else
        match get_drm_plane_type k fd id with
        | .error (f, tcs) => .error (f, Call.drmModeGetPlane fd id true :: tcs)
        | .ok (type, tcs) =>
          if type = DRM_PLANE_TYPE_PRIMARY then
            .ok (some id,
              Call.drmModeGetPlane fd id true :: (tcs ++ [Call.drmModeFreePlane (some id)]))
          else
            after (Call.drmModeGetPlane fd id true :: (tcs ++ [Call.drmModeFreePlane (some id)]))
              (kms_assign_planes_loop k fd (i + 1) rest)

/-- The function `kms_assign_planes`: the plane list pointer is read without a
test; the scanout call at the end is made on every path. -/
def kms_assign_planes (k : Drm) (g : Globals) : Run Globals :=
  match k.drmModeGetPlaneResources g.modeset_dev.fd with
  | none => .error (.null_dereference, [Call.drmModeGetPlaneResources g.modeset_dev.fd false])
  | some plane_resources =>
    match kms_assign_planes_loop k g.modeset_dev.fd 0 plane_resources.planes with
    | .error (f, cs) => .error (f, Call.drmModeGetPlaneResources g.modeset_dev.fd true :: cs)
    | .ok (w, cs) =>
      let primary_plane_id := w.getD g.pipe.primary_plane_id
      let crtc_id := toInt32 g.modeset_dev.crtc
      .ok ({ g with pipe := { g.pipe with primary_plane_id := primary_plane_id,
                                          crtc_id := crtc_id } },
        Call.drmModeGetPlaneResources g.modeset_dev.fd true :: cs ++
          dump_drmModePlaneRes_info plane_resources ++
          [Call.drmModeFreePlaneResources] ++
          (if primary_plane_id = 0 then [Call.fprintf (Msg.cannot_set_plane g.pipe.primary_fb_id)]
           else []) ++
          [Call.drmModeSetPlane g.modeset_dev.fd primary_plane_id (toUInt32 crtc_id)
             g.pipe.primary_fb_id 0 0 0 1920 1200 0 0 (1920 <<< 16) (1200 <<< 16)])

/-! ## kms_rendernode_init -/

/-- The connector loop of `kms_rendernode_init` from index `i` on: the stores to
`modeset_dev.crtc` and `modeset_dev.conn`, if made, and the calls.  The encoder
pointer is read (`enc->crtc_id`) without a test. -/
def kms_rendernode_init_loop (k : Drm) (fd : Int) : Nat → List Nat → Run (Option (Nat × Nat))
  | _, [] => .ok (none, [])
  | i, id :: rest =>
    match k.drmModeGetConnector fd id with
    | none =>
      after [Call.drmModeGetConnector fd id false,
             Call.fprintf (Msg.cannot_retrieve_connector i id),
             Call.drmModeFreeConnector none]
        (kms_rendernode_init_loop k fd (i + 1) rest)
    | some connector =>
      if connector.connection ≠ DRM_MODE_CONNECTED then
        after [Call.drmModeGetConnector fd id true,
               Call.fprintf (Msg.ignoring_unused_connector connector.connector_id),
               Call.drmModeFreeConnector (some id)]
          (kms_rendernode_init_loop k fd (i + 1) rest)
      else if connector.count_modes = 0 then
        after [Call.drmModeGetConnector fd id true,
               Call.fprintf (Msg.no_valid_mode connector.connector_id),
               Call.drmModeFreeConnector (some id)]
          (kms_rendernode_init_loop k fd (i + 1) rest)
      else if connector.encoder_id = 0 then
        after [Call.drmModeGetConnector fd id true, Call.drmModeFreeConnector (some id)]
          (kms_rendernode_init_loop k fd (i + 1) rest)
      else
        match k.drmModeGetEncoder fd connector.encoder_id with
        | none =>
          .error (.null_dereference,
            [Call.drmModeGetConnector fd id true,
             Call.drmModeGetEncoder fd connector.encoder_id false])
        | some enc =>
          if enc.crtc_id = 0 then
            after [Call.drmModeGetConnector fd id true,
                   Call.drmModeGetEncoder fd connector.encoder_id true,
                   Call.drmModeFreeConnector (some id)]
              (kms_rendernode_init_loop k fd (i + 1) rest)
          else
            .ok (some (enc.crtc_id, connector.connector_id),
                 [Call.drmModeGetConnector fd id true,
                  Call.drmModeGetEncoder fd connector.encoder_id true,
                  Call.drmModeFreeEncoder connector.encoder_id,
                  Call.drmModeFreeConnector (some id)])

/-- The function `kms_rendernode_init`: the return value and the globals after
the call. -/
def kms_rendernode_init (k : Drm) (g : Globals) : Run (Int × Globals) :=
  match k.open_card with
  | .error errno => .ok ((-(errno : Int), g), [Call.open_card false, Call.fprintf Msg.cannot_open_card])
  | .ok fd =>
    match k.drmModeGetResources fd with
    | .error errno =>
      .ok ((-(errno : Int), g),
        [Call.open_card true, Call.drmSetClientCap fd, Call.drmModeGetResources fd false,
         Call.fprintf Msg.cannot_retrieve_resources])
    | .ok res =>
      after [Call.open_card true, Call.drmSetClientCap fd, Call.drmModeGetResources fd true]
        (match kms_rendernode_init_loop k fd 0 res.connectors with
         | .error e => .error e
         | .ok (none, cs) => .ok ((0, g), cs ++ [Call.drmModeFreeResources])
         | .ok (some (crtc, conn), cs) =>
           .ok ((0, { g with modeset_dev :=
                        { g.modeset_dev with crtc := crtc, conn := conn, fd := fd } }),
                cs ++ [Call.drmModeFreeResources]))

/-! ## kms_init -/

/-- A card that opens as descriptor 3 and exposes nothing. -/
def Drm.blank : Drm :=
  { open_card := .ok 3
    drmModeGetResources := fun _ => .ok { connectors := [] }
    drmModeGetConnector := fun _ _ => none
    drmModeGetEncoder := fun _ _ => none
    drmModeGetPlaneResources := fun _ => some { planes := [] }
    drmModeGetPlane := fun _ _ => none
    drmModeObjectGetProperties := fun _ _ _ => none
    drmModeGetProperty := fun _ _ => none
    graphic_get_plane_id := 7 }

/-- Property descriptors of the sample cards: property 5 is named "type",
property 6 is named "rotation". -/
def sampleProperty (id : Nat) : Option drmModePropertyRes :=
  if id = 5 then some { prop_id := 5, name := "type" }
  else if id = 6 then some { prop_id := 6, name := "rotation" }
  else none

/-- Planes `[10, 11]`: plane 10 is fetched and eligible at index 0 but its
property list cannot be fetched; plane 11 is a primary plane eligible at index 1. -/
def vanishedPropsCard : Drm :=
  { Drm.blank with
    drmModeGetPlaneResources := fun _ => some { planes := [10, 11] }
    drmModeGetPlane := fun _ id =>
      if id = 10 then some { plane_id := 10, possible_crtcs := 1 }
      else if id = 11 then some { plane_id := 11, possible_crtcs := 2 }
      else none
    drmModeObjectGetProperties := fun _ id _ =>
      if id = 11 then some { props := [(6, 0), (5, 1)] } else none
    drmModeGetProperty := fun _ id => sampleProperty id }

/-- Planes `[10, 11]`, both eligible at their index, both of type overlay. -/
def overlayOnlyCard : Drm :=
  { Drm.blank with
    drmModeGetPlaneResources := fun _ => some { planes := [10, 11] }
    drmModeGetPlane := fun _ id =>
      if id = 10 then some { plane_id := 10, possible_crtcs := 3 }
      else if id = 11 then some { plane_id := 11, possible_crtcs := 3 }
      else none
    drmModeObjectGetProperties := fun _ id _ =>
      if id = 10 ∨ id = 11 then some { props := [(6, 0), (5, 0)] } else none
    drmModeGetProperty := fun _ id => sampleProperty id }

/-- Connectors `[20, 21]`: connector 20 is connected with one mode and encoder
30, which cannot be fetched; connector 21 is connected with one mode and
encoder 31, bound to CRTC 41. -/
def vanishedEncoderCard : Drm :=
  { Drm.blank with
    drmModeGetResources := fun _ => .ok { connectors := [20, 21] }
    drmModeGetConnector := fun _ id =>
      if id = 20 then
        some { connector_id := 20, encoder_id := 30, connection := DRM_MODE_CONNECTED,
               count_modes := 1 }
      else if id = 21 then
        some { connector_id := 21, encoder_id := 31, connection := DRM_MODE_CONNECTED,
               count_modes := 1 }
      else none
    drmModeGetEncoder := fun _ id =>
      if id = 31 then some { encoder_id := 31, crtc_id := 41 } else none }

/-- Connectors `[20]`: connector 20 is connected with one mode and encoder 30,
which is fetched and has no CRTC bound (`crtc_id = 0`). -/
def idleEncoderCard : Drm :=
  { Drm.blank with
    drmModeGetResources := fun _ => .ok { connectors := [20] }
    drmModeGetConnector := fun _ id =>
      if id = 20 then
        some { connector_id := 20, encoder_id := 30, connection := DRM_MODE_CONNECTED,
               count_modes := 1 }
      else none
    drmModeGetEncoder := fun _ id =>
      if id = 30 then some { encoder_id := 30, crtc_id := 0 } else none }

/-- Property descriptors allocated by the calls: one for the property list and
one for each property descriptor that was fetched. -/
def propertyFetches (cs : List Call) : Nat :=
  cs.countP fun c =>
    match c with
    | .drmModeObjectGetProperties _ _ _ ok => ok
    | .drmModeGetProperty _ _ ok => ok
    | _ => false

/-- Releases among the calls: one for each `drmModeFreeProperty` and each
`drmModeFreeObjectProperties`. -/
def propertyReleases (cs : List Call) : Nat :=
  cs.countP fun c =>
    match c with
    | .drmModeFreeObjectProperties _ => true
    | .drmModeFreeProperty _ => true
    | _ => false

/-- The scanout calls among the calls, in order. -/
def setPlaneCalls (cs : List Call) : List Call :=
  cs.filter fun c =>
    match c with
    | .drmModeSetPlane .. => true
    | _ => false

/-- Plane `id`, met at enumeration index `i`, qualifies as primary: its
descriptor is fetched, bit `i` of `possible_crtcs` is set and
`get_drm_plane_type` returns `DRM_PLANE_TYPE_PRIMARY`. -/
def planeQualifies (k : Drm) (fd : Int) (i id : Nat) : Bool :=
  match k.drmModeGetPlane fd id with
  | none => false
  | some p =>
    decide ((p.possible_crtcs % 2 ^ 32) &&& (1 <<< i) ≠ 0) &&
      match get_drm_plane_type k fd id with
      | .ok (t, _) => decide (t = DRM_PLANE_TYPE_PRIMARY)
      | .error _ => false

/-- The property list that the plane loop fetches for plane `id` met at index
`i`, when it gets that far, can be fetched. -/
def planeTypeFetchable (k : Drm) (fd : Int) (i id : Nat) : Bool :=
  match k.drmModeGetPlane fd id with
  | none => true
  | some p =>
    decide ((p.possible_crtcs % 2 ^ 32) &&& (1 <<< i) = 0) ||
      (k.drmModeObjectGetProperties fd id DRM_MODE_OBJECT_PLANE).isSome

/-- Connector `id` qualifies: its descriptor is fetched, it is connected, it
reports a mode, its encoder id is not zero and its encoder is fetched with a
CRTC id that is not zero. -/
def connectorQualifies (k : Drm) (fd : Int) (id : Nat) : Bool :=
  match k.drmModeGetConnector fd id with
  | none => false
  | some c =>
    decide (c.connection = DRM_MODE_CONNECTED) && decide (c.count_modes ≠ 0) &&
      decide (c.encoder_id ≠ 0) &&
      match k.drmModeGetEncoder fd c.encoder_id with
      | none => false
      | some enc => decide (enc.crtc_id ≠ 0)

/-- The encoder that the connector loop fetches for connector `id`, when it
gets that far, can be fetched. -/
def encoderFetchable (k : Drm) (fd : Int) (id : Nat) : Bool :=
  match k.drmModeGetConnector fd id with
  | none => true
  | some c =>
    decide (c.connection ≠ DRM_MODE_CONNECTED) || decide (c.count_modes = 0) ||
      decide (c.encoder_id = 0) || (k.drmModeGetEncoder fd c.encoder_id).isSome

/-- Encoder descriptors of object `id` allocated by the calls. -/
def encoderFetches (id : Nat) (cs : List Call) : Nat :=
  cs.countP fun c =>
    match c with
    | .drmModeGetEncoder _ id1 ok => ok && decide (id1 = id)
    | _ => false

/-- Encoder descriptors of object `id` released by the calls. -/
def encoderReleases (id : Nat) (cs : List Call) : Nat :=
  cs.countP fun c =>
    match c with
    | .drmModeFreeEncoder id1 => decide (id1 = id)
    | _ => false

/-- Globals after a discovery that recorded CRTC 41 and connector 21 on
descriptor 3, with framebuffer 7 supplied by the host. -/
def discovered : Globals :=
  { pipe := { primary_fb_id := 7, cursor_fb_id := 0, primary_plane_id := 0,
              cursor_plane_id := 0, crtc_id := 0 }
    modeset_dev := { width := 0, height := 0, conn := 21, crtc := 41, fd := 3 } }

/-- When the property loop returns false, no entry carries the name and nothing
is stored. -/
theorem kmstest_get_property_loop_not_found (k : Drm) (drm_fd : Int) (name : String)
    (prop_id value prop : Bool) (l : List (Nat × Nat))
    (h : (kmstest_get_property_loop k drm_fd name prop_id value prop l).1.found = false) :
    (∀ e ∈ l, ∀ p, k.drmModeGetProperty drm_fd e.1 = some p → p.name ≠ name) ∧
    (kmstest_get_property_loop k drm_fd name prop_id value prop l).1 =
      { found := false, prop_id := none, value := none, prop := none } := by
  induction l with
  | nil => simp [kmstest_get_property_loop]
  | cons e rest ih =>
    obtain ⟨id, v⟩ := e
    cases hp : k.drmModeGetProperty drm_fd id with
    | none =>
      simp only [kmstest_get_property_loop, hp] at h ⊢
      obtain ⟨h1, h2⟩ := ih h
      refine ⟨?_, h2⟩
      intro e he p hep
      rcases List.mem_cons.1 he with rfl | he
      · simp [hp] at hep
      · exact h1 e he p hep
    | some q =>
      by_cases hn : q.name = name
      · simp [kmstest_get_property_loop, hp, hn] at h
      · simp only [kmstest_get_property_loop, hp, hn, if_false] at h ⊢
        obtain ⟨h1, h2⟩ := ih h
        refine ⟨?_, h2⟩
        intro e he p hep
        rcases List.mem_cons.1 he with rfl | he
        · simp only [hp, Option.some.injEq] at hep
          subst hep
          exact hn
        · exact h1 e he p hep

/-- When the property loop returns true, the values stored are those of the
first entry whose descriptor is fetched and carries the name. -/
theorem kmstest_get_property_loop_found (k : Drm) (drm_fd : Int) (name : String)
    (prop_id value prop : Bool) (l : List (Nat × Nat))
    (h : (kmstest_get_property_loop k drm_fd name prop_id value prop l).1.found = true) :
    ∃ (i : Nat) (e : Nat × Nat) (p : drmModePropertyRes), l[i]? = some e ∧ k.drmModeGetProperty drm_fd e.1 = some p ∧ p.name = name ∧
      (∀ j, j < i → ∀ (e1 : Nat × Nat) (p1 : drmModePropertyRes), l[j]? = some e1 → k.drmModeGetProperty drm_fd e1.1 = some p1 →
        p1.name ≠ name) ∧
      (kmstest_get_property_loop k drm_fd name prop_id value prop l).1 =
        { found := true
          prop_id := if prop_id then some e.1 else none
          value := if value then some e.2 else none
          prop := if prop then some p else none } := by
  induction l with
  | nil => simp [kmstest_get_property_loop] at h
  | cons e rest ih =>
    obtain ⟨id, v⟩ := e
    have step : ∀ (hskip : ∀ p1, k.drmModeGetProperty drm_fd id = some p1 → p1.name ≠ name)
        (hr : (kmstest_get_property_loop k drm_fd name prop_id value prop rest).1.found = true),
        ∃ (i : Nat) (e : Nat × Nat) (p : drmModePropertyRes), ((id, v) :: rest)[i]? = some e ∧ k.drmModeGetProperty drm_fd e.1 = some p ∧
          p.name = name ∧
          (∀ j, j < i → ∀ (e1 : Nat × Nat) (p1 : drmModePropertyRes), ((id, v) :: rest)[j]? = some e1 →
            k.drmModeGetProperty drm_fd e1.1 = some p1 → p1.name ≠ name) ∧
          (kmstest_get_property_loop k drm_fd name prop_id value prop rest).1 =
            { found := true
              prop_id := if prop_id then some e.1 else none
              value := if value then some e.2 else none
              prop := if prop then some p else none } := by
      intro hskip hr
      obtain ⟨i, e, p, h1, h2, h3, h4, h5⟩ := ih hr
      refine ⟨i + 1, e, p, by simpa using h1, h2, h3, ?_, h5⟩
      intro j hj e1 p1 hj1 hj2
      cases j with
      | zero =>
        simp only [List.getElem?_cons_zero, Option.some.injEq] at hj1
        subst hj1
        exact hskip p1 hj2
      | succ j =>
        simp only [List.getElem?_cons_succ] at hj1
        exact h4 j (by omega) e1 p1 hj1 hj2
    cases hp : k.drmModeGetProperty drm_fd id with
    | none =>
      simp only [kmstest_get_property_loop, hp] at h ⊢
      exact step (by simp [hp]) h
    | some q =>
      by_cases hn : q.name = name
      · refine ⟨0, (id, v), q, by simp, hp, hn, by simp, ?_⟩
        simp [kmstest_get_property_loop, hp, hn]
      · simp only [kmstest_get_property_loop, hp, hn, if_false] at h ⊢
        refine step ?_ h
        intro p1 hp1
        simp only [hp, Option.some.injEq] at hp1
        subst hp1
        exact hn

/-- The property loop releases every descriptor it fetched, unless it hands the
matching descriptor to the caller. -/
theorem kmstest_get_property_loop_balance (k : Drm) (drm_fd : Int) (name : String)
    (prop_id value prop : Bool) (l : List (Nat × Nat))
    (h : (kmstest_get_property_loop k drm_fd name prop_id value prop l).1.found = false ∨
      prop = false) :
    propertyFetches (kmstest_get_property_loop k drm_fd name prop_id value prop l).2 =
      propertyReleases (kmstest_get_property_loop k drm_fd name prop_id value prop l).2 := by
  induction l with
  | nil => simp [kmstest_get_property_loop, propertyFetches, propertyReleases]
  | cons e rest ih =>
    obtain ⟨id, v⟩ := e
    cases hp : k.drmModeGetProperty drm_fd id with
    | none =>
      simp only [kmstest_get_property_loop, hp] at h ⊢
      have := ih h
      simpa [propertyFetches, propertyReleases] using this
    | some q =>
      by_cases hn : q.name = name
      · simp only [kmstest_get_property_loop, hp, hn, if_true] at h ⊢
        rcases h with h | h
        · simp at h
        · subst h
          simp [propertyFetches, propertyReleases]
      · simp only [kmstest_get_property_loop, hp, hn, if_false] at h ⊢
        have := ih h
        simpa [propertyFetches, propertyReleases] using this


/-- C6: when the property list of the object can be fetched, `kmstest_get_property`
returns, and it returns true exactly when some entry of the list has a fetchable
descriptor whose name equals the requested name; on true the values stored
through the requested out pointers are `props[i]`, `prop_values[i]` and the
descriptor of the least such index `i`; on false nothing is stored. -/
theorem kmstest_get_property_spec (k : Drm) (drm_fd : Int) (object_id object_type : Nat)
    (name : String) (prop_id value prop : Bool) (proplist : drmModeObjectProperties)
    (hlist : k.drmModeObjectGetProperties drm_fd object_id object_type = some proplist) :
    ∃ (r : PropertyLookup) (cs : List Call),
      kmstest_get_property k drm_fd object_id object_type name prop_id value prop = .ok (r, cs) ∧
      (r.found = true ↔
        ∃ (i : Nat) (e : Nat × Nat) (p : drmModePropertyRes), proplist.props[i]? = some e ∧
          k.drmModeGetProperty drm_fd e.1 = some p ∧ p.name = name) ∧
      (r.found = true →
        ∃ (i : Nat) (e : Nat × Nat) (p : drmModePropertyRes), proplist.props[i]? = some e ∧
          k.drmModeGetProperty drm_fd e.1 = some p ∧ p.name = name ∧
          (∀ j, j < i → ∀ (e1 : Nat × Nat) (p1 : drmModePropertyRes),
            proplist.props[j]? = some e1 → k.drmModeGetProperty drm_fd e1.1 = some p1 →
            p1.name ≠ name) ∧
          r.prop_id = (if prop_id then some e.1 else none) ∧
          r.value = (if value then some e.2 else none) ∧
          r.prop = (if prop then some p else none)) ∧
      (r.found = false → r.prop_id = none ∧ r.value = none ∧ r.prop = none) := by
  refine ⟨_, _, by simp only [kmstest_get_property, hlist]; rfl, ?_, ?_, ?_⟩
  · constructor
    · intro h
      obtain ⟨i, e, p, h1, h2, h3, -⟩ :=
        kmstest_get_property_loop_found k drm_fd name prop_id value prop proplist.props h
      exact ⟨i, e, p, h1, h2, h3⟩
    · rintro ⟨i, e, p, h1, h2, h3⟩
      by_contra hf
      have hf : (kmstest_get_property_loop k drm_fd name prop_id value prop
          proplist.props).1.found = false := by simpa using hf
      have hno := (kmstest_get_property_loop_not_found k drm_fd name prop_id value prop
        proplist.props hf).1
      exact hno e (List.getElem?_mem h1) p h2 h3
  · intro h
    obtain ⟨i, e, p, h1, h2, h3, h4, h5⟩ :=
      kmstest_get_property_loop_found k drm_fd name prop_id value prop proplist.props h
    exact ⟨i, e, p, h1, h2, h3, h4, by rw [h5], by rw [h5], by rw [h5]⟩
  · intro h
    have h5 := (kmstest_get_property_loop_not_found k drm_fd name prop_id value prop
      proplist.props h).2
    exact ⟨by rw [h5], by rw [h5], by rw [h5]⟩

/-- Witness of C6 on plane 11 of `vanishedPropsCard`, whose list is
`[(6, 0), (5, 1)]` with property 5 named "type". -/
theorem kmstest_get_property_spec_witness :
    vanishedPropsCard.drmModeObjectGetProperties 3 11 DRM_MODE_OBJECT_PLANE =
        some { props := [(6, 0), (5, 1)] } ∧
      ∃ (r : PropertyLookup) (cs : List Call),
        kmstest_get_property vanishedPropsCard 3 11 DRM_MODE_OBJECT_PLANE "type" true true false =
          .ok (r, cs) ∧
        (r.found = true ↔
          ∃ (i : Nat) (e : Nat × Nat) (p : drmModePropertyRes),
            [((6 : Nat), (0 : Nat)), (5, 1)][i]? = some e ∧
            vanishedPropsCard.drmModeGetProperty 3 e.1 = some p ∧ p.name = "type") :=
  ⟨rfl,
    let ⟨r, cs, h1, h2, _⟩ :=
      kmstest_get_property_spec vanishedPropsCard 3 11 DRM_MODE_OBJECT_PLANE "type" true true false
        { props := [(6, 0), (5, 1)] } rfl
    ⟨r, cs, h1, h2⟩⟩

/-- C7: when the property list can be fetched and either no property of the list
carries the requested name or the caller passes `prop = NULL`,
`kmstest_get_property` returns with as many releases as fetches; and when no
property carries the name it returns false. -/
theorem kmstest_get_property_no_leak (k : Drm) (drm_fd : Int) (object_id object_type : Nat)
    (name : String) (prop_id value prop : Bool) (proplist : drmModeObjectProperties)
    (hlist : k.drmModeObjectGetProperties drm_fd object_id object_type = some proplist)
    (hcase : (∀ e ∈ proplist.props, ∀ p, k.drmModeGetProperty drm_fd e.1 = some p →
        p.name ≠ name) ∨ prop = false) :
    ∃ (r : PropertyLookup) (cs : List Call),
      kmstest_get_property k drm_fd object_id object_type name prop_id value prop = .ok (r, cs) ∧
      propertyFetches cs = propertyReleases cs ∧
      ((∀ e ∈ proplist.props, ∀ p, k.drmModeGetProperty drm_fd e.1 = some p → p.name ≠ name) →
        r.found = false) := by
  have hnone : (∀ e ∈ proplist.props, ∀ p, k.drmModeGetProperty drm_fd e.1 = some p →
      p.name ≠ name) →
      (kmstest_get_property_loop k drm_fd name prop_id value prop proplist.props).1.found
        = false := by
    intro hno
    by_contra hf
    have hf : (kmstest_get_property_loop k drm_fd name prop_id value prop
        proplist.props).1.found = true := by simpa using hf
    obtain ⟨i, e, p, h1, h2, h3, -⟩ :=
      kmstest_get_property_loop_found k drm_fd name prop_id value prop proplist.props hf
    exact hno e (List.getElem?_mem h1) p h2 h3
  refine ⟨_, _, by simp only [kmstest_get_property, hlist]; rfl, ?_, hnone⟩
  have hb := kmstest_get_property_loop_balance k drm_fd name prop_id value prop proplist.props
    (hcase.imp hnone id)
  simp only [propertyFetches, propertyReleases, List.countP_cons, List.countP_append,
    List.countP_nil] at hb ⊢
  simp only [hb]
  simp

/-- Witness of C7 on plane 11 of `vanishedPropsCard`: no property is named
"alpha". -/
theorem kmstest_get_property_no_leak_witness :
    ∃ (r : PropertyLookup) (cs : List Call),
      kmstest_get_property vanishedPropsCard 3 11 DRM_MODE_OBJECT_PLANE "alpha" true true true =
        .ok (r, cs) ∧
      propertyFetches cs = propertyReleases cs ∧ r.found = false :=
  let ⟨r, cs, h1, h2, h3⟩ :=
    kmstest_get_property_no_leak vanishedPropsCard 3 11 DRM_MODE_OBJECT_PLANE "alpha" true true true
      { props := [(6, 0), (5, 1)] } rfl (Or.inl (by decide))
  ⟨r, cs, h1, h2, h3 (by decide)⟩

/-- C9 on plane 10 of `vanishedPropsCard`, whose property list cannot be
fetched: `kmstest_get_property` reads through the NULL list instead of
returning false, and so `get_drm_plane_type` does not return overlay. -/
theorem kmstest_get_property_null_list_fault :
    vanishedPropsCard.drmModeObjectGetProperties 3 10 DRM_MODE_OBJECT_PLANE = none ∧
    kmstest_get_property vanishedPropsCard 3 10 DRM_MODE_OBJECT_PLANE "type" false true false =
      .error (Fault.null_dereference,
        [Call.drmModeObjectGetProperties 3 10 DRM_MODE_OBJECT_PLANE false]) ∧
    get_drm_plane_type vanishedPropsCard 3 10 =
      .error (Fault.null_dereference,
        [Call.drmModeObjectGetProperties 3 10 DRM_MODE_OBJECT_PLANE false]) :=
  ⟨rfl, rfl, rfl⟩

/-! ## Plane binding -/

/-- Passing a `uint32_t` through `int` and back gives its low 32 bits. -/
theorem toUInt32_toInt32 (n : Nat) : toUInt32 (toInt32 n) = n % 2 ^ 32 := by
  unfold toUInt32 toInt32
  have h : n % 2 ^ 32 < 2 ^ 32 := Nat.mod_lt _ (by norm_num)
  split <;> omega

/-- The scanout calls of a concatenation. -/
theorem setPlaneCalls_append (a b : List Call) :
    setPlaneCalls (a ++ b) = setPlaneCalls a ++ setPlaneCalls b := by
  simp [setPlaneCalls]

/-- The property loop makes no scanout call. -/
theorem kmstest_get_property_loop_no_scanout (k : Drm) (drm_fd : Int) (name : String)
    (prop_id value prop : Bool) (l : List (Nat × Nat)) :
    setPlaneCalls (kmstest_get_property_loop k drm_fd name prop_id value prop l).2 = [] := by
  induction l with
  | nil => simp [kmstest_get_property_loop, setPlaneCalls]
  | cons e rest ih =>
    obtain ⟨id, v⟩ := e
    cases hp : k.drmModeGetProperty drm_fd id with
    | none =>
      simp only [kmstest_get_property_loop, hp]
      simpa [setPlaneCalls] using ih
    | some q =>
      by_cases hn : q.name = name
      · simp only [kmstest_get_property_loop, hp, hn, if_true]
        cases prop <;> simp [setPlaneCalls]
      · simp only [kmstest_get_property_loop, hp, hn, if_false]
        simpa [setPlaneCalls] using ih

/-- When the property list of the plane can be fetched, `get_drm_plane_type`
returns a type, and makes no scanout call. -/
theorem get_drm_plane_type_returns (k : Drm) (drm_fd : Int) (plane_id : Nat)
    (h : (k.drmModeObjectGetProperties drm_fd plane_id DRM_MODE_OBJECT_PLANE).isSome = true) :
    ∃ t cs, get_drm_plane_type k drm_fd plane_id = .ok (t, cs) ∧ setPlaneCalls cs = [] := by
  obtain ⟨proplist, hl⟩ := Option.isSome_iff_exists.1 h
  have hns := kmstest_get_property_loop_no_scanout k drm_fd "type" false true false proplist.props
  have hcs : setPlaneCalls
      (Call.drmModeObjectGetProperties drm_fd plane_id DRM_MODE_OBJECT_PLANE true ::
        ((kmstest_get_property_loop k drm_fd "type" false true false proplist.props).2 ++
          [Call.drmModeFreeObjectProperties plane_id])) = [] := by
    have : setPlaneCalls [Call.drmModeFreeObjectProperties plane_id] = [] := by
      simp [setPlaneCalls]
    rw [show ∀ (c : Call) (l : List Call), c :: l = [c] ++ l from fun _ _ => rfl,
      setPlaneCalls_append, setPlaneCalls_append, hns, this]
    simp [setPlaneCalls]
  cases hf : (kmstest_get_property_loop k drm_fd "type" false true false proplist.props).1.found with
  | false =>
    refine ⟨DRM_PLANE_TYPE_OVERLAY, _, ?_, hcs⟩
    simp only [get_drm_plane_type, kmstest_get_property, hl, hf]
    rfl
  | true =>
    obtain ⟨i, e, p, -, -, -, -, h5⟩ :=
      kmstest_get_property_loop_found k drm_fd "type" false true false proplist.props hf
    refine ⟨toInt32 e.2, _, ?_, hcs⟩
    simp only [get_drm_plane_type, kmstest_get_property, hl, h5]
    rfl

/-- When no plane from index `i` on qualifies and the loop can read the type of
every plane it gets to (a fetched plane sits at an index below 31 and, when its
bit is set, its property list can be fetched), the plane loop returns without a
store and without a scanout call. -/
theorem kms_assign_planes_loop_none (k : Drm) (fd : Int) (l : List Nat) :
    ∀ (i : Nat),
      (∀ (j id : Nat), l[j]? = some id → (k.drmModeGetPlane fd id).isSome = true →
        i + j < 31) →
      (∀ (j id : Nat), l[j]? = some id → planeTypeFetchable k fd (i + j) id = true) →
      (∀ (j id : Nat), l[j]? = some id → planeQualifies k fd (i + j) id = false) →
      ∃ cs, kms_assign_planes_loop k fd i l = .ok (none, cs) ∧ setPlaneCalls cs = [] := by
  induction l with
  | nil => intro i _ _ _; exact ⟨[], rfl, rfl⟩
  | cons id rest ih =>
    intro i hshift hread hno
    have hrest : ∃ cs, kms_assign_planes_loop k fd (i + 1) rest = .ok (none, cs) ∧
        setPlaneCalls cs = [] := by
      apply ih (i + 1)
      · intro j id1 h1 h2
        have := hshift (j + 1) id1 (by simpa using h1) h2
        omega
      · intro j id1 h1
        have := hread (j + 1) id1 (by simpa using h1)
        rwa [show i + (j + 1) = i + 1 + j by omega] at this
      · intro j id1 h1
        have := hno (j + 1) id1 (by simpa using h1)
        rwa [show i + (j + 1) = i + 1 + j by omega] at this
    obtain ⟨cs, hcs, hsp⟩ := hrest
    have h0 := hno 0 id (by simp)
    have hf0 := hread 0 id (by simp)
    simp only [Nat.add_zero] at h0 hf0
    cases hp : k.drmModeGetPlane fd id with
    | none =>
      refine ⟨[Call.drmModeGetPlane fd id false, Call.drmModeFreePlane none] ++ cs,
        by simp only [kms_assign_planes_loop, hp, hcs, after], ?_⟩
      rw [setPlaneCalls_append, hsp]; simp [setPlaneCalls]
    | some p =>
      have hi : ¬ 31 ≤ i := by
        have := hshift 0 id (by simp) (by simp [hp])
        omega
      by_cases hb : (p.possible_crtcs % 2 ^ 32) &&& (1 <<< i) = 0
      · refine ⟨[Call.drmModeGetPlane fd id true, Call.drmModeFreePlane (some id)] ++ cs,
          by simp only [kms_assign_planes_loop, hp, hi, hb, hcs, after, if_true, if_false], ?_⟩
        rw [setPlaneCalls_append, hsp]; simp [setPlaneCalls]
      · have hsome : (k.drmModeObjectGetProperties fd id DRM_MODE_OBJECT_PLANE).isSome
            = true := by
          have hb1 : ¬ (p.possible_crtcs % 4294967296 &&& 1 <<< i = 0) := by simpa using hb
          simpa [planeTypeFetchable, hp, hb1] using hf0
        obtain ⟨t, tcs, ht, htsp⟩ := get_drm_plane_type_returns k fd id hsome
        have hne : ¬ t = DRM_PLANE_TYPE_PRIMARY := by
          intro htp
          simp [planeQualifies, hp, ht, htp] at h0
          exact hb (by simpa using h0)
        refine ⟨(Call.drmModeGetPlane fd id true :: (tcs ++ [Call.drmModeFreePlane (some id)]))
            ++ cs,
          by simp only [kms_assign_planes_loop, hp, hi, hb, ht, hne, hcs, after, if_false], ?_⟩
        rw [setPlaneCalls_append, hsp,
          show ∀ (c : Call) (l : List Call), c :: l = [c] ++ l from fun _ _ => rfl,
          setPlaneCalls_append, setPlaneCalls_append, htsp]
        simp [setPlaneCalls]

/-- First match of the plane loop: when the plane at position `j` of the list is
the first that qualifies and the loop can read the type of the planes before
it, the loop stores the id of that plane, and runs exactly as on the list cut
after position `j`, so no later plane is fetched. -/
theorem kms_assign_planes_loop_first (k : Drm) (fd : Int) (l : List Nat) :
    ∀ (i j id : Nat), i + j < 31 → l[j]? = some id → planeQualifies k fd (i + j) id = true →
      (∀ (j1 id1 : Nat), j1 < j → l[j1]? = some id1 →
        planeQualifies k fd (i + j1) id1 = false ∧ planeTypeFetchable k fd (i + j1) id1 = true) →
      ∃ cs, kms_assign_planes_loop k fd i l = .ok (some id, cs) ∧
        kms_assign_planes_loop k fd i (l.take (j + 1)) = .ok (some id, cs) := by
  induction l with
  | nil => intro i j id _ h; simp at h
  | cons a rest ih =>
    intro i j id hlt hj hq hbefore
    cases j with
    | zero =>
      simp only [List.getElem?_cons_zero, Option.some.injEq] at hj
      subst hj
      simp only [Nat.add_zero] at hq hlt
      have hi : ¬ 31 ≤ i := by omega
      cases hp : k.drmModeGetPlane fd a with
      | none => simp [planeQualifies, hp] at hq
      | some p =>
        simp only [planeQualifies, hp, Bool.and_eq_true, decide_eq_true_eq] at hq
        obtain ⟨hb, ht⟩ := hq
        cases hty : get_drm_plane_type k fd a with
        | error e => simp [hty] at ht
        | ok r =>
          obtain ⟨t, tcs⟩ := r
          simp only [hty, decide_eq_true_eq] at ht
          refine ⟨Call.drmModeGetPlane fd a true :: (tcs ++ [Call.drmModeFreePlane (some a)]),
            ?_, ?_⟩
          · simp only [kms_assign_planes_loop, hp, hi, hb, hty, ht, if_true, if_false]
          · simp only [Nat.zero_add, List.take_succ_cons, List.take_zero,
              kms_assign_planes_loop, hp, hi, hb, hty, ht, if_true, if_false]
    | succ j =>
      simp only [List.getElem?_cons_succ] at hj
      obtain ⟨cs, h1, h2⟩ := ih (i + 1) j id (by omega) hj
        (by rwa [show i + 1 + j = i + (j + 1) by omega])
        (by
          intro j1 id1 hj1 hid1
          have := hbefore (j1 + 1) id1 (by omega) (by simpa using hid1)
          rwa [show i + (j1 + 1) = i + 1 + j1 by omega] at this)
      obtain ⟨hq0, hf0⟩ := hbefore 0 a (by omega) (by simp)
      simp only [Nat.add_zero] at hq0 hf0
      have hi : ¬ 31 ≤ i := by omega
      cases hp : k.drmModeGetPlane fd a with
      | none =>
        exact ⟨[Call.drmModeGetPlane fd a false, Call.drmModeFreePlane none] ++ cs,
          by simp only [kms_assign_planes_loop, hp, h1, after],
          by simp only [List.take_succ_cons, kms_assign_planes_loop, hp, h2, after]⟩
      | some p =>
        by_cases hb : (p.possible_crtcs % 2 ^ 32) &&& (1 <<< i) = 0
        · exact ⟨[Call.drmModeGetPlane fd a true, Call.drmModeFreePlane (some a)] ++ cs,
            by simp only [kms_assign_planes_loop, hp, hi, hb, h1, after, if_true, if_false],
            by simp only [List.take_succ_cons, kms_assign_planes_loop, hp, hi, hb, h2, after,
              if_true, if_false]⟩
        · have hsome : (k.drmModeObjectGetProperties fd a DRM_MODE_OBJECT_PLANE).isSome
              = true := by
            have hb1 : ¬ (p.possible_crtcs % 4294967296 &&& 1 <<< i = 0) := by simpa using hb
            simpa [planeTypeFetchable, hp, hb1] using hf0
          obtain ⟨t, tcs, ht, -⟩ := get_drm_plane_type_returns k fd a hsome
          have hne : ¬ t = DRM_PLANE_TYPE_PRIMARY := by
            intro htp
            simp [planeQualifies, hp, ht, htp] at hq0
            exact hb (by simpa using hq0)
          exact ⟨(Call.drmModeGetPlane fd a true :: (tcs ++ [Call.drmModeFreePlane (some a)]))
              ++ cs,
            by simp only [kms_assign_planes_loop, hp, hi, hb, ht, hne, h1, after, if_false],
            by simp only [List.take_succ_cons, kms_assign_planes_loop, hp, hi, hb, ht, hne, h2,
              after, if_false]⟩

/-- First match of `kms_assign_planes`: under the conditions of
`kms_assign_planes_loop_first` the function returns with the id of the first
qualifying plane in `primary_plane_id`. -/
theorem kms_assign_planes_first (k : Drm) (g : Globals) (res : drmModePlaneRes) (j id : Nat)
    (hres : k.drmModeGetPlaneResources g.modeset_dev.fd = some res)
    (hlt : j < 31) (hj : res.planes[j]? = some id)
    (hq : planeQualifies k g.modeset_dev.fd j id = true)
    (hbefore : ∀ (j1 id1 : Nat), j1 < j → res.planes[j1]? = some id1 →
      planeQualifies k g.modeset_dev.fd j1 id1 = false ∧
      planeTypeFetchable k g.modeset_dev.fd j1 id1 = true) :
    ∃ (g1 : Globals) (cs : List Call), kms_assign_planes k g = .ok (g1, cs) ∧
      g1.pipe.primary_plane_id = id := by
  obtain ⟨cs, h1, -⟩ := kms_assign_planes_loop_first k g.modeset_dev.fd res.planes 0 j id
    (by omega) hj (by simpa using hq) (by intro j1 id1 h1 h2; simpa using hbefore j1 id1 h1 h2)
  refine ⟨_, _, by simp only [kms_assign_planes, hres, h1]; rfl, ?_⟩
  simp

/-- C1 on `vanishedPropsCard`: plane 11, at index 1, is the first plane that
qualifies as primary, but `kms_assign_planes` stops in a NULL read at plane 10,
whose property list cannot be fetched, and records nothing. -/
theorem kms_assign_planes_vanished_props_fault :
    planeQualifies vanishedPropsCard 3 0 10 = false ∧
    planeQualifies vanishedPropsCard 3 1 11 = true ∧
    kms_assign_planes vanishedPropsCard discovered =
      .error (Fault.null_dereference,
        [Call.drmModeGetPlaneResources 3 true, Call.drmModeGetPlane 3 10 true,
         Call.drmModeObjectGetProperties 3 10 DRM_MODE_OBJECT_PLANE false]) :=
  ⟨rfl, rfl, rfl⟩

/-- The scanout of `kms_assign_planes` is unconditional: when no plane qualifies
as primary, `primary_plane_id` is zero and the loop can read the type of every
plane it gets to, the function prints the "cannot set plane" diagnostic and
then still calls `drmModeSetPlane`, once, with plane id 0. -/
theorem kms_assign_planes_scanout_unconditional (k : Drm) (g : Globals) (res : drmModePlaneRes)
    (hres : k.drmModeGetPlaneResources g.modeset_dev.fd = some res)
    (hzero : g.pipe.primary_plane_id = 0)
    (hshift : ∀ (i id : Nat), res.planes[i]? = some id →
      (k.drmModeGetPlane g.modeset_dev.fd id).isSome = true → i < 31)
    (hread : ∀ (i id : Nat), res.planes[i]? = some id →
      planeTypeFetchable k g.modeset_dev.fd i id = true)
    (hno : ∀ (i id : Nat), res.planes[i]? = some id →
      planeQualifies k g.modeset_dev.fd i id = false) :
    ∃ (g1 : Globals) (cs : List Call), kms_assign_planes k g = .ok (g1, cs) ∧
      g1.pipe.primary_plane_id = 0 ∧
      Call.fprintf (Msg.cannot_set_plane g.pipe.primary_fb_id) ∈ cs ∧
      setPlaneCalls cs =
        [Call.drmModeSetPlane g.modeset_dev.fd 0 (g.modeset_dev.crtc % 2 ^ 32)
          g.pipe.primary_fb_id 0 0 0 1920 1200 0 0 (1920 <<< 16) (1200 <<< 16)] := by
  obtain ⟨cs, hcs, hsp⟩ := kms_assign_planes_loop_none k g.modeset_dev.fd res.planes 0
    (by intro j id h1 h2; simpa using hshift j id h1 h2)
    (by intro j id h; simpa using hread j id h)
    (by intro j id h; simpa using hno j id h)
  refine ⟨_, _, by simp only [kms_assign_planes, hres, hcs]; rfl, ?_, ?_, ?_⟩
  · simp [hzero]
  · simp [hzero]
  · have hd : setPlaneCalls (dump_drmModePlaneRes_info res) = [] := by
      simp [setPlaneCalls, dump_drmModePlaneRes_info, List.filter_eq_nil_iff]
    rw [show ∀ (c : Call) (l : List Call), c :: l = [c] ++ l from fun _ _ => rfl]
    simp only [setPlaneCalls_append, hsp, hd, Option.getD_none, hzero, if_true,
      toUInt32_toInt32]
    simp [setPlaneCalls]

/-- C2 on `overlayOnlyCard`, whose two planes are of type overlay, with
`primary_plane_id` zero: no plane qualifies as primary, and `kms_assign_planes`
prints the "cannot set plane" diagnostic and then makes a scanout call with
plane id 0, where the claim has no scanout call. -/
theorem kms_assign_planes_overlay_only_scanout :
    planeQualifies overlayOnlyCard 3 0 10 = false ∧
    planeQualifies overlayOnlyCard 3 1 11 = false ∧
    discovered.pipe.primary_plane_id = 0 ∧
    ∃ (g1 : Globals) (cs : List Call), kms_assign_planes overlayOnlyCard discovered = .ok (g1, cs) ∧
      g1.pipe.primary_plane_id = 0 ∧
      Call.fprintf (Msg.cannot_set_plane 7) ∈ cs ∧
      setPlaneCalls cs =
        [Call.drmModeSetPlane 3 0 41 7 0 0 0 1920 1200 0 0 125829120 78643200] :=
  ⟨rfl, rfl, rfl, _, _, rfl, rfl, by decide, rfl⟩

/-! ## Topology discovery -/

/-- First match of the connector loop: when the connector at position `j` is the
first that qualifies and the encoders of the connectors before it can be
fetched, the loop stores the CRTC id of its encoder and its connector id, and
runs exactly as on the list cut after position `j`. -/
theorem kms_rendernode_init_loop_first (k : Drm) (fd : Int) (l : List Nat) :
    ∀ (i j id : Nat), l[j]? = some id → connectorQualifies k fd id = true →
      (∀ (j1 id1 : Nat), j1 < j → l[j1]? = some id1 →
        connectorQualifies k fd id1 = false ∧ encoderFetchable k fd id1 = true) →
      ∃ c enc cs, k.drmModeGetConnector fd id = some c ∧
        k.drmModeGetEncoder fd c.encoder_id = some enc ∧
        kms_rendernode_init_loop k fd i l = .ok (some (enc.crtc_id, c.connector_id), cs) ∧
        kms_rendernode_init_loop k fd i (l.take (j + 1)) =
          .ok (some (enc.crtc_id, c.connector_id), cs) := by
  induction l with
  | nil => intro i j id h; simp at h
  | cons a rest ih =>
    intro i j id hj hq hbefore
    cases j with
    | zero =>
      simp only [List.getElem?_cons_zero, Option.some.injEq] at hj
      subst hj
      cases hc : k.drmModeGetConnector fd a with
      | none => simp [connectorQualifies, hc] at hq
      | some c =>
        cases he : k.drmModeGetEncoder fd c.encoder_id with
        | none => simp [connectorQualifies, hc, he] at hq
        | some enc =>
          simp only [connectorQualifies, hc, he, Bool.and_eq_true, decide_eq_true_eq] at hq
          obtain ⟨⟨⟨h1, h2⟩, h3⟩, h4⟩ := hq
          refine ⟨c, enc,
            [Call.drmModeGetConnector fd a true, Call.drmModeGetEncoder fd c.encoder_id true,
             Call.drmModeFreeEncoder c.encoder_id, Call.drmModeFreeConnector (some a)],
            rfl, he, ?_, ?_⟩
          · simp only [kms_rendernode_init_loop, hc, he, h1, h2, h3, h4, ne_eq,
              not_true_eq_false, if_false]
          · simp only [Nat.zero_add, List.take_succ_cons, List.take_zero,
              kms_rendernode_init_loop, hc, he, h1, h2, h3, h4, ne_eq, not_true_eq_false,
              if_false]
    | succ j =>
      simp only [List.getElem?_cons_succ] at hj
      obtain ⟨c, enc, cs, hc, he, h1, h2⟩ := ih (i + 1) j id hj hq
        (by
          intro j1 id1 hj1 hid1
          exact hbefore (j1 + 1) id1 (by omega) (by simpa using hid1))
      obtain ⟨hq0, hf0⟩ := hbefore 0 a (by omega) (by simp)
      refine ⟨c, enc, ?_⟩
      cases hc0 : k.drmModeGetConnector fd a with
      | none =>
        exact ⟨[Call.drmModeGetConnector fd a false,
            Call.fprintf (Msg.cannot_retrieve_connector i a),
            Call.drmModeFreeConnector none] ++ cs, hc, he,
          by simp only [kms_rendernode_init_loop, hc0, h1, after],
          by simp only [List.take_succ_cons, kms_rendernode_init_loop, hc0, h2, after]⟩
      | some c0 =>
        by_cases g1 : c0.connection ≠ DRM_MODE_CONNECTED
        · exact ⟨[Call.drmModeGetConnector fd a true,
              Call.fprintf (Msg.ignoring_unused_connector c0.connector_id),
              Call.drmModeFreeConnector (some a)] ++ cs, hc, he,
            by simp only [kms_rendernode_init_loop, hc0, g1, h1, after, if_true, ne_eq,
              not_false_eq_true],
            by simp only [List.take_succ_cons, kms_rendernode_init_loop, hc0, g1, h2, after,
              if_true, ne_eq, not_false_eq_true]⟩
        · by_cases g2 : c0.count_modes = 0
          · exact ⟨[Call.drmModeGetConnector fd a true,
                Call.fprintf (Msg.no_valid_mode c0.connector_id),
                Call.drmModeFreeConnector (some a)] ++ cs, hc, he,
              by simp only [kms_rendernode_init_loop, hc0, g1, g2, h1, after, if_true, if_false],
              by simp only [List.take_succ_cons, kms_rendernode_init_loop, hc0, g1, g2, h2,
                after, if_true, if_false]⟩
          · by_cases g3 : c0.encoder_id = 0
            · exact ⟨[Call.drmModeGetConnector fd a true, Call.drmModeFreeConnector (some a)]
                  ++ cs, hc, he,
                by simp only [kms_rendernode_init_loop, hc0, g1, g2, g3, h1, after, if_true,
                  if_false],
                by simp only [List.take_succ_cons, kms_rendernode_init_loop, hc0, g1, g2, g3,
                  h2, after, if_true, if_false]⟩
            · have hsome : (k.drmModeGetEncoder fd c0.encoder_id).isSome = true := by
                simpa [encoderFetchable, hc0, g1, g2, g3] using hf0
              obtain ⟨enc0, he0⟩ := Option.isSome_iff_exists.1 hsome
              have g4 : enc0.crtc_id = 0 := by
                have g1b : c0.connection = DRM_MODE_CONNECTED := not_not.1 g1
                simpa [connectorQualifies, hc0, he0, g1b, g2, g3] using hq0
              exact ⟨[Call.drmModeGetConnector fd a true,
                  Call.drmModeGetEncoder fd c0.encoder_id true,
                  Call.drmModeFreeConnector (some a)] ++ cs, hc, he,
                by simp only [kms_rendernode_init_loop, hc0, g1, g2, g3, he0, g4, h1, after,
                  if_true, if_false],
                by simp only [List.take_succ_cons, kms_rendernode_init_loop, hc0, g1, g2, g3,
                  he0, g4, h2, after, if_true, if_false]⟩

/-- First match of `kms_rendernode_init`: under the conditions of
`kms_rendernode_init_loop_first` the function returns 0 with the CRTC id, the
connector id and the card descriptor recorded in `modeset_dev`. -/
theorem kms_rendernode_init_first (k : Drm) (g : Globals) (fd : Int) (res : drmModeRes)
    (j id : Nat) (hopen : k.open_card = .ok fd) (hres : k.drmModeGetResources fd = .ok res)
    (hj : res.connectors[j]? = some id) (hq : connectorQualifies k fd id = true)
    (hbefore : ∀ (j1 id1 : Nat), j1 < j → res.connectors[j1]? = some id1 →
      connectorQualifies k fd id1 = false ∧ encoderFetchable k fd id1 = true) :
    ∃ c enc cs, k.drmModeGetConnector fd id = some c ∧
      k.drmModeGetEncoder fd c.encoder_id = some enc ∧
      kms_rendernode_init k g =
        .ok ((0, { g with modeset_dev :=
                     { g.modeset_dev with crtc := enc.crtc_id, conn := c.connector_id,
                                          fd := fd } }), cs) := by
  obtain ⟨c, enc, cs, hc, he, h1, -⟩ :=
    kms_rendernode_init_loop_first k fd res.connectors 0 j id hj hq hbefore
  exact ⟨c, enc,
    [Call.open_card true, Call.drmSetClientCap fd, Call.drmModeGetResources fd true] ++
      (cs ++ [Call.drmModeFreeResources]), hc, he,
    by simp only [kms_rendernode_init, hopen, hres, h1, after]⟩

/-- C3 on `vanishedEncoderCard`: connector 21 is the first connector that
qualifies, but `kms_rendernode_init` stops in a NULL read at connector 20, whose
encoder cannot be fetched, and records nothing. -/
theorem kms_rendernode_init_vanished_encoder_fault :
    connectorQualifies vanishedEncoderCard 3 20 = false ∧
    connectorQualifies vanishedEncoderCard 3 21 = true ∧
    kms_rendernode_init vanishedEncoderCard Globals.zero =
      .error (Fault.null_dereference,
        [Call.open_card true, Call.drmSetClientCap 3, Call.drmModeGetResources 3 true,
         Call.drmModeGetConnector 3 20 true, Call.drmModeGetEncoder 3 30 false]) :=
  ⟨rfl, rfl, rfl⟩

/-- C10 on connector 20 of `vanishedEncoderCard`, connected with one mode and a
non-zero encoder id whose encoder cannot be fetched: the connector loop reads
through the NULL encoder instead of skipping the connector, and connector 21 is
never fetched. -/
theorem kms_rendernode_init_loop_null_encoder_fault :
    vanishedEncoderCard.drmModeGetConnector 3 20 =
      some { connector_id := 20, encoder_id := 30, connection := DRM_MODE_CONNECTED,
             count_modes := 1 } ∧
    vanishedEncoderCard.drmModeGetEncoder 3 30 = none ∧
    kms_rendernode_init_loop vanishedEncoderCard 3 0 [20, 21] =
      .error (Fault.null_dereference,
        [Call.drmModeGetConnector 3 20 true, Call.drmModeGetEncoder 3 30 false]) :=
  ⟨rfl, rfl, rfl⟩

/-- C8 on `idleEncoderCard`, whose connector 20 has encoder 30 with no CRTC
bound: `kms_rendernode_init` returns with the encoder descriptor fetched once
and never released. -/
theorem kms_rendernode_init_idle_encoder_leak :
    kms_rendernode_init idleEncoderCard Globals.zero =
      .ok ((0, Globals.zero),
        [Call.open_card true, Call.drmSetClientCap 3, Call.drmModeGetResources 3 true,
         Call.drmModeGetConnector 3 20 true, Call.drmModeGetEncoder 3 30 true,
         Call.drmModeFreeConnector (some 20), Call.drmModeFreeResources]) ∧
    encoderFetches 30
      [Call.open_card true, Call.drmSetClientCap 3, Call.drmModeGetResources 3 true,
       Call.drmModeGetConnector 3 20 true, Call.drmModeGetEncoder 3 30 true,
       Call.drmModeFreeConnector (some 20), Call.drmModeFreeResources] = 1 ∧
    encoderReleases 30
      [Call.open_card true, Call.drmSetClientCap 3, Call.drmModeGetResources 3 true,
       Call.drmModeGetConnector 3 20 true, Call.drmModeGetEncoder 3 30 true,
       Call.drmModeFreeConnector (some 20), Call.drmModeFreeResources] = 0 :=
  ⟨rfl, rfl, rfl⟩

end Kms
